import Mathlib

/-!
# Verification of the relay automation engine (RPI_Monitoring_Automation)

Shallow embedding of `src/core/compoents/relay_manager.py` (class `RelayManager`)
and the averaging functions of `src/core/compoents/sensor_manager.py`.

Conventions of the embedding:
* Python booleans become `Bool`, numbers used in threshold / sensor comparisons
  become `ℚ`, epoch timestamps and minute counts become `ℕ`.
* The mutable dictionary `self.relay_configs` becomes a function
  `St := RelayId → Entry`, one `Entry` per relay holding the mutable fields
  that the automation logic reads or writes (`state`, `override`,
  `override_until`, `override_duration`, the parsed `schedule`, and the
  optional `cycle`).  The `dependencies` lists are the fixed ones from
  `RelayManager.__init__` (nothing in the automation code mutates them), so
  they are embedded as the function `deps`.
* GPIO / Tapo / logging calls are external I/O and are not modelled; the state
  update performed by `_set_relay_output` is.
-/

namespace RPIMon

/-- Wall-clock time of day, mirroring `datetime.time(hour, minute)` as built by
`_is_in_schedule` from the `"HH:MM"` schedule strings. -/
structure Tod where
  hour : ℕ
  minute : ℕ
deriving DecidableEq, Repr

/-- The `<=` comparison on `datetime.time` objects with zero seconds:
lexicographic on (hour, minute). -/
def todLe (a b : Tod) : Bool :=
  decide (a.hour < b.hour) || (decide (a.hour = b.hour) && decide (a.minute ≤ b.minute))

/-- A relay's `cycle` dictionary: `{on_duration, interval, last_toggle}`
(minutes, minutes, epoch seconds). -/
structure Cyc where
  on_duration : ℕ
  interval : ℕ
  last_toggle : ℕ
deriving DecidableEq, Repr

/-- The mutable per-relay fields of `self.relay_configs[relay_id]` that the
engine reads or writes. -/
structure Entry where
  state : Bool
  override : Bool
  override_until : ℕ
  override_duration : ℕ
  sched_start : Tod
  sched_end : Tod
  cycle : Option Cyc
deriving DecidableEq, Repr

/-- The eight relays of the reference deployment. -/
inductive RelayId
  | relay1 | relay2 | relay3 | relay4 | relay5 | relay6 | relay7 | relay8
deriving DecidableEq, Repr

/-- The relay-state map `self.relay_configs` (mutable fields only). -/
abbrev St : Type := RelayId → Entry

/-- The fixed `dependencies` lists from `RelayManager.__init__`. -/
def deps : RelayId → List RelayId
  | .relay1 => []
  | .relay2 => [.relay1]
  | .relay3 => [.relay1]
  | .relay4 => [.relay1]
  | .relay5 => [.relay1]
  | .relay6 => []
  | .relay7 => [.relay1]
  | .relay8 => []

/-- Dictionary insertion order of `self.relay_configs`, the iteration order of
every `for relay_id, config in self.relay_configs.items()` loop. -/
def relayOrder : List RelayId :=
  [.relay1, .relay2, .relay3, .relay4, .relay5, .relay6, .relay7, .relay8]

/-- Point update of the relay map at one relay id. -/
def updE (s : St) (r : RelayId) (f : Entry → Entry) : St :=
  fun q => if q = r then f (s q) else s q

/-- Update only the `state` field of one relay. -/
def updState (s : St) (r : RelayId) (b : Bool) : St :=
  updE s r (fun e => { e with state := b })

/-- Embeds `_set_relay_output(relay_id, state)`: skips when the state is unchanged,
otherwise writes the GPIO pin (not modelled) and records the new `state`. -/
def set_relay_output (s : St) (r : RelayId) (b : Bool) : St :=
  if (s r).state = b then s else updState s r b

/-- The global `self.thresholds` dictionary. -/
structure Thresh where
  humidity_low : ℚ
  humidity_high : ℚ
  temperature_low : ℚ
  temperature_high : ℚ
  co2_low : ℚ
  co2_tubfans_low : ℚ
  co2_high : ℚ
deriving DecidableEq, Repr

/-- The defaults installed by `RelayManager.__init__`. -/
def initThresh : Thresh :=
  { humidity_low := 50, humidity_high := 85
    temperature_low := 20, temperature_high := 24
    co2_low := 1000, co2_tubfans_low := 1100, co2_high := 1600 }

/-- The sensor quantities one automation tick consumes: the two averages and
the scd40 CO2 reading. -/
structure SensorAvg where
  avg_temp : ℚ
  avg_humidity : ℚ
  co2 : ℚ
deriving DecidableEq, Repr

/-- Embeds `_is_in_schedule(relay_id, current_time)` on a relay's parsed schedule. -/
def isInSchedule (e : Entry) (now : Tod) : Bool :=
  if todLe e.sched_start e.sched_end then
    todLe e.sched_start now && todLe now e.sched_end
  else
    todLe e.sched_start now || todLe now e.sched_end

/-- Embeds `_should_cycle_be_on(relay_id)`: the position in the epoch-keyed duty cycle.
A relay without a `cycle` key returns `False`. -/
def shouldCycleBeOn (s : St) (ts : ℕ) (r : RelayId) : Bool :=
  match (s r).cycle with
  | none => false
  | some c => decide (ts % (c.interval * 60) < c.on_duration * 60)

/-- Embeds `_should_relay_be_on(relay_id, current_time, avg_temp, avg_humidity, co2)`,
reading the live relay map `s`. -/
def shouldRelayBeOn (th : Thresh) (sv : SensorAvg) (now : Tod) (ts : ℕ)
    (s : St) (r : RelayId) : Bool :=
  -- `config = self.relay_configs[relay_id]` is `s r`
  if (s r).override then (s r).state
  else if !isInSchedule (s r) now then false
  else
    match r with
    | .relay1 => (s r).state
    | .relay2 => (s r).state
    | .relay3 => (s r).state
    | .relay4 =>
        shouldCycleBeOn s ts .relay4 || decide (sv.co2 < th.co2_tubfans_low)
          || (s .relay5).state
    | .relay5 => decide (sv.avg_humidity < th.humidity_low)
    | .relay6 => decide (sv.avg_temp < th.temperature_low)
    | .relay7 =>
        shouldCycleBeOn s ts .relay7 || decide (th.co2_high < sv.co2)
          || (s .relay5).state
    | .relay8 => false

/-- One relay's share of the override-timeout purge at the top of
`_process_automation`: clears `override` and `override_until` when
`override and override_until > 0 and current_timestamp > override_until`. -/
def purgeEntry (ts : ℕ) (e : Entry) : Entry :=
  if e.override && decide (0 < e.override_until) && decide (e.override_until < ts) then
    { e with override := false, override_until := 0 }
  else e

/-- The purge loop over all relays. -/
def purgeAll (s : St) (ts : ℕ) : St := fun r => purgeEntry ts (s r)

/-- The `relay1_needed` scan: some relay other than relay1 lists relay1 among
its dependencies and its rule wants it on. -/
def relay1Needed (th : Thresh) (sv : SensorAvg) (now : Tod) (ts : ℕ) (s : St) : Bool :=
  relayOrder.any fun r =>
    !decide (r = .relay1) && decide (RelayId.relay1 ∈ deps r)
      && shouldRelayBeOn th sv now ts s r

/-- The relay1 (Main PSU) pass: turned on whenever needed; turned off only when
not under override. -/
def relay1Pass (th : Thresh) (sv : SensorAvg) (now : Tod) (ts : ℕ) (s : St) : St :=
  if relay1Needed th sv now ts s then set_relay_output s .relay1 true
  else if !(s .relay1).override then set_relay_output s .relay1 false
  else s

/-- One iteration of the "Process other relays" loop (relay1 is skipped with
`continue`). -/
def mainStep (th : Thresh) (sv : SensorAvg) (now : Tod) (ts : ℕ)
    (s : St) (r : RelayId) : St :=
  if r = .relay1 then s
  else
    -- `should_be_on` and `dependencies_met` from the loop body, inlined
    if (shouldRelayBeOn th sv now ts s r
          && (deps r).all fun d => (s d).state) then set_relay_output s r true
    else if !(s r).override then set_relay_output s r false
    else s

/-- The "Process other relays" loop in dictionary order. -/
def mainLoop (th : Thresh) (sv : SensorAvg) (now : Tod) (ts : ℕ) (s : St) : St :=
  relayOrder.foldl (mainStep th sv now ts) s

/-- The dedicated UV/Grow alternating-cycle pass.  The source reads
`relay_configs['relay2']['cycle']` unconditionally; in every reachable state
that key exists (a `none` here would raise a `KeyError` in Python, aborting
the rest of the tick body, which we model as leaving the map unchanged). -/
def lightsPass (now : Tod) (ts : ℕ) (s : St) : St :=
  if !(s .relay2).override && !(s .relay3).override then
    if isInSchedule (s .relay2) now && isInSchedule (s .relay3) now then
      match (s .relay2).cycle with
      | some c =>
          if (ts / 60) % c.interval < c.on_duration then
            set_relay_output (set_relay_output s .relay2 true) .relay3 false
          else
            set_relay_output (set_relay_output s .relay2 false) .relay3 true
      | none => s
    else s
  else s

/-- Cross-coupling: humidifiers on forces IN/OUT fans on unless relay7 is
overridden. -/
def couple7 (s : St) : St :=
  if (s .relay5).state && !(s .relay7).override then set_relay_output s .relay7 true
  else s

/-- Cross-coupling: humidifiers on forces tub fans on unless relay4 is
overridden. -/
def couple4 (s : St) : St :=
  if (s .relay5).state && !(s .relay4).override then set_relay_output s .relay4 true
  else s

/-- Embeds `_process_automation`: purge expired overrides, decide relay1, run the
main loop, the alternating-lights pass, then the two coupling passes. -/
def processAutomation (th : Thresh) (sv : SensorAvg) (now : Tod) (ts : ℕ)
    (s : St) : St :=
  couple4 (couple7 (lightsPass now ts
    (mainLoop th sv now ts (relay1Pass th sv now ts (purgeAll s ts)))))

/-- The relay map installed by `RelayManager.__init__` (defaults before any
profile update). -/
def initSt : St := fun r =>
  let base : Entry :=
    { state := false, override := false, override_until := 0
      override_duration := 300
      sched_start := ⟨0, 0⟩, sched_end := ⟨23, 59⟩, cycle := none }
  match r with
  | .relay1 => base
  | .relay2 => { base with cycle := some ⟨30, 60, 0⟩ }
  | .relay3 => { base with cycle := some ⟨30, 60, 0⟩ }
  | .relay4 => { base with cycle := some ⟨15, 60, 0⟩ }
  | .relay5 => base
  | .relay6 => base
  | .relay7 => { base with cycle := some ⟨15, 60, 0⟩ }
  | .relay8 => base

/-- Embeds `set_relay_state(relay_id, state, override, duration)` with explicit fuel
for the two recursive passes (switch unmet dependencies on; cascade dependents
off).  Any chain of recursive calls visits pairwise distinct relays (each call
either finds its target already in the wanted state or writes it before
recursing), so depth is bounded by the 8 relays and the fuel below never runs
out at the fuel chosen in `set_relay_state`. -/
def setRelayStateFuel : ℕ → St → RelayId → Bool → Bool → Option ℕ → ℕ → St
  | 0, s, _, _, _, _, _ => s
  | n + 1, s, r, b, ov, dur, nowTs =>
    -- "Check dependencies for turning ON": recursively switch on unmet deps
    let s1 : St :=
      if b && !ov then
        (deps r).foldl
          (fun t d => if (t d).state then t
            else setRelayStateFuel n t d true false none nowTs) s
      else s
    -- "Set override parameters"
    let s2 : St :=
      if ov then
        updE s1 r fun e =>
          { e with override := true
                   override_until := nowTs + dur.getD e.override_duration }
      else s1
    -- "Set physical relay state"
    let s3 : St := set_relay_output s2 r b
    -- "If turning OFF ... turn dependent relays off too"
    if !b then
      relayOrder.foldl
        (fun t d =>
          if decide (r ∈ deps d) && (t d).state then
            setRelayStateFuel n t d false false none nowTs
          else t) s3
    else s3

/-- The public `set_relay_state` entry point (fuel 16 is never exhausted: the
recursion depth is bounded by the number of relays). -/
def set_relay_state (s : St) (r : RelayId) (b ov : Bool) (dur : Option ℕ)
    (nowTs : ℕ) : St :=
  setRelayStateFuel 16 s r b ov dur nowTs

/-- Embeds `relay_id in dependent_config['dependencies']`: the direct dependency edge
used by the cascading shutdown. -/
def directDep (d r : RelayId) : Prop := r ∈ deps d

/-- A Python argument as seen by `set_cycle`'s `isinstance(..., int)` check:
either an `int` or a non-`int` number (a float, modelled as a rational). -/
inductive PyArg
  | int (n : ℤ)
  | float (q : ℚ)
deriving DecidableEq, Repr

/-- Embeds `set_cycle(relay_id, on_duration, interval)`: rejects non-`int` arguments,
non-positive values, and `on_duration > interval`; on success writes the two
cycle fields (creating the `cycle` dict with `last_toggle = 0` when absent). -/
def set_cycle (s : St) (r : RelayId) (od iv : PyArg) : St × Bool :=
  match od, iv with
  | .int d, .int i =>
    if d ≤ 0 ∨ i ≤ 0 then (s, false)
    else if i < d then (s, false)
    else
      (updE s r fun e =>
        { e with cycle := some (match e.cycle with
            | none => ⟨d.toNat, i.toNat, 0⟩
            | some c => ⟨d.toNat, i.toNat, c.last_toggle⟩) }, true)
  | _, _ => (s, false)

/-- A Python argument as seen by `set_thresholds`'s
`isinstance(..., (int, float))` check: a number or anything else. -/
inductive PyVal
  | num (q : ℚ)
  | other
deriving DecidableEq, Repr

/-- Embeds `set_thresholds(threshold_type, low, high)`: rejects unknown kinds,
non-numeric arguments and `low >= high`; on success overwrites exactly the
`low` and `high` entries of the selected kind. -/
def set_thresholds (th : Thresh) (kind : String) (low high : PyVal) :
    Thresh × Bool :=
  if kind = "temperature" ∨ kind = "humidity" ∨ kind = "co2" then
    match low, high with
    | .num l, .num h =>
      if h ≤ l then (th, false)
      else if kind = "temperature" then
        ({ th with temperature_low := l, temperature_high := h }, true)
      else if kind = "humidity" then
        ({ th with humidity_low := l, humidity_high := h }, true)
      else
        ({ th with co2_low := l, co2_high := h }, true)
    | _, _ => (th, false)
  else (th, false)

/-- The stored pair `self.thresholds[kind]['low'], ['high']`. -/
def getPair (th : Thresh) (kind : String) : ℚ × ℚ :=
  if kind = "temperature" then (th.temperature_low, th.temperature_high)
  else if kind = "humidity" then (th.humidity_low, th.humidity_high)
  else (th.co2_low, th.co2_high)

/-- One sensor's slot in `self.sensor_data` (only the fields the averaging
functions read). -/
structure Reading where
  temperature : ℚ
  humidity : ℚ
deriving DecidableEq, Repr

/-- The three sensors contributing to the averages. -/
structure SensorData where
  upper_dht : Reading
  lower_dht : Reading
  scd40 : Reading
deriving DecidableEq, Repr

/-- The local `valid_temps = [t for t in temps if t != 0]` of
`get_average_temperature`. -/
def valid_temps (sd : SensorData) : List ℚ :=
  [sd.upper_dht.temperature, sd.lower_dht.temperature,
   sd.scd40.temperature].filter fun t => t ≠ 0

/-- Embeds `get_average_temperature`: the mean of the non-zero temperatures, 0 when all
three are the sentinel 0. -/
def get_average_temperature (sd : SensorData) : ℚ :=
  if (valid_temps sd).isEmpty then 0
  else (valid_temps sd).sum / (valid_temps sd).length

/-- The local `valid_humidities = [h for h in humidities if h != 0]` of
`get_average_humidity`. -/
def valid_humidities (sd : SensorData) : List ℚ :=
  [sd.upper_dht.humidity, sd.lower_dht.humidity,
   sd.scd40.humidity].filter fun h => h ≠ 0

/-- Embeds `get_average_humidity`: the mean of the non-zero humidities, 0 when all three
are the sentinel 0. -/
def get_average_humidity (sd : SensorData) : ℚ :=
  if (valid_humidities sd).isEmpty then 0
  else (valid_humidities sd).sum / (valid_humidities sd).length

/-! ## Basic lemmas about the state-update primitives -/

theorem updState_apply (s : St) (r : RelayId) (b : Bool) (q : RelayId) :
    updState s r b q = if q = r then { s q with state := b } else s q := rfl

theorem set_relay_output_eq (s : St) (r : RelayId) (b : Bool) :
    set_relay_output s r b = updState s r b := by
  unfold set_relay_output
  split
  · next h =>
      funext q
      rw [updState_apply]
      by_cases hq : q = r
      · subst hq; rw [if_pos rfl, ← h]
      · rw [if_neg hq]
  · rfl

theorem updState_apply_ne (s : St) (r : RelayId) (b : Bool) (q : RelayId)
    (h : q ≠ r) : updState s r b q = s q := by
  rw [updState_apply, if_neg h]

theorem updState_state_self (s : St) (r : RelayId) (b : Bool) :
    (updState s r b r).state = b := by
  rw [updState_apply, if_pos rfl]

/-- The non-`state` fields of one relay entry: everything the automation tick
reads but never writes after the purge. -/
def cfgPart (e : Entry) : Bool × ℕ × ℕ × Tod × Tod × Option Cyc :=
  (e.override, e.override_until, e.override_duration,
   e.sched_start, e.sched_end, e.cycle)

theorem cfgPart_updState (s : St) (r : RelayId) (b : Bool) (q : RelayId) :
    cfgPart (updState s r b q) = cfgPart (s q) := by
  rw [updState_apply]
  by_cases hq : q = r <;> simp [hq, cfgPart]

theorem cfgPart_sro (s : St) (r : RelayId) (b : Bool) (q : RelayId) :
    cfgPart (set_relay_output s r b q) = cfgPart (s q) := by
  rw [set_relay_output_eq]; exact cfgPart_updState s r b q

theorem cfgPart_fields {a b : Entry} (h : cfgPart a = cfgPart b) :
    a.override = b.override ∧ a.override_until = b.override_until ∧
    a.override_duration = b.override_duration ∧
    a.sched_start = b.sched_start ∧ a.sched_end = b.sched_end ∧
    a.cycle = b.cycle := by
  simp only [cfgPart, Prod.mk.injEq] at h
  exact ⟨h.1, h.2.1, h.2.2.1, h.2.2.2.1, h.2.2.2.2.1, h.2.2.2.2.2⟩

/-! ## The tick only writes `state` after the purge -/

theorem cfgPart_relay1Pass (th : Thresh) (sv : SensorAvg) (now : Tod) (ts : ℕ)
    (s : St) (q : RelayId) :
    cfgPart (relay1Pass th sv now ts s q) = cfgPart (s q) := by
  unfold relay1Pass
  split_ifs <;> first | exact cfgPart_sro .. | rfl

theorem cfgPart_mainStep (th : Thresh) (sv : SensorAvg) (now : Tod) (ts : ℕ)
    (s : St) (x q : RelayId) :
    cfgPart (mainStep th sv now ts s x q) = cfgPart (s q) := by
  unfold mainStep
  by_cases hx : x = RelayId.relay1
  · rw [if_pos hx]
  · rw [if_neg hx]
    split_ifs <;> first | exact cfgPart_sro .. | rfl

theorem cfgPart_mainLoop (th : Thresh) (sv : SensorAvg) (now : Tod) (ts : ℕ)
    (s : St) (q : RelayId) :
    cfgPart (mainLoop th sv now ts s q) = cfgPart (s q) := by
  simp only [mainLoop, relayOrder, List.foldl]
  iterate 8 rw [cfgPart_mainStep]

theorem cfgPart_lightsPass (now : Tod) (ts : ℕ) (s : St) (q : RelayId) :
    cfgPart (lightsPass now ts s q) = cfgPart (s q) := by
  unfold lightsPass
  split_ifs
  · rcases hc : (s RelayId.relay2).cycle with _ | c
    · rfl
    · dsimp only
      split_ifs <;> rw [cfgPart_sro, cfgPart_sro]
  · rfl
  · rfl

theorem cfgPart_couple7 (s : St) (q : RelayId) :
    cfgPart (couple7 s q) = cfgPart (s q) := by
  unfold couple7
  split_ifs <;> first | exact cfgPart_sro .. | rfl

theorem cfgPart_couple4 (s : St) (q : RelayId) :
    cfgPart (couple4 s q) = cfgPart (s q) := by
  unfold couple4
  split_ifs <;> first | exact cfgPart_sro .. | rfl

/-- After the purge, no pass of the tick touches any field other than
`state`. -/
theorem cfgPart_tick (th : Thresh) (sv : SensorAvg) (now : Tod) (ts : ℕ)
    (s : St) (q : RelayId) :
    cfgPart (processAutomation th sv now ts s q) = cfgPart (purgeAll s ts q) := by
  unfold processAutomation
  rw [cfgPart_couple4, cfgPart_couple7, cfgPart_lightsPass, cfgPart_mainLoop,
    cfgPart_relay1Pass]

/-! ## Purge lemmas -/

theorem purge_state (s : St) (ts : ℕ) (q : RelayId) :
    (purgeAll s ts q).state = (s q).state := by
  unfold purgeAll purgeEntry; split_ifs <;> rfl

theorem purge_sched_start (s : St) (ts : ℕ) (q : RelayId) :
    (purgeAll s ts q).sched_start = (s q).sched_start := by
  unfold purgeAll purgeEntry; split_ifs <;> rfl

theorem purge_sched_end (s : St) (ts : ℕ) (q : RelayId) :
    (purgeAll s ts q).sched_end = (s q).sched_end := by
  unfold purgeAll purgeEntry; split_ifs <;> rfl

theorem purge_cycle (s : St) (ts : ℕ) (q : RelayId) :
    (purgeAll s ts q).cycle = (s q).cycle := by
  unfold purgeAll purgeEntry; split_ifs <;> rfl

theorem purge_override_pos (s : St) (ts : ℕ) (q : RelayId)
    (h : (s q).override = true) (h0 : 0 < (s q).override_until)
    (hlt : (s q).override_until < ts) :
    (purgeAll s ts q).override = false ∧ (purgeAll s ts q).override_until = 0 := by
  unfold purgeAll purgeEntry
  rw [if_pos (by simp [h, h0, hlt])]
  exact ⟨rfl, rfl⟩

theorem purge_override_keep (s : St) (ts : ℕ) (q : RelayId)
    (h : (s q).override = false ∨ (s q).override_until = 0 ∨
         ts ≤ (s q).override_until) :
    purgeAll s ts q = s q := by
  unfold purgeAll purgeEntry
  rw [if_neg]
  simp only [Bool.and_eq_true, decide_eq_true_eq, not_and]
  intro h1 h2
  rcases h with h | h | h
  · rw [h1.1] at h; cases h
  · omega
  · omega

/-! ## An overridden relay's `state` survives each pass -/

theorem sro_apply_ne (s : St) (r : RelayId) (b : Bool) (q : RelayId)
    (h : q ≠ r) : set_relay_output s r b q = s q := by
  rw [set_relay_output_eq]; exact updState_apply_ne s r b q h

theorem relay1Pass_apply_ne (th : Thresh) (sv : SensorAvg) (now : Tod) (ts : ℕ)
    (s : St) (q : RelayId) (h : q ≠ .relay1) :
    relay1Pass th sv now ts s q = s q := by
  unfold relay1Pass
  split_ifs <;> first | exact sro_apply_ne s _ _ q h | rfl

theorem relay1Pass_ovr_not_needed (th : Thresh) (sv : SensorAvg) (now : Tod)
    (ts : ℕ) (s : St) (ho : (s .relay1).override = true)
    (hn : relay1Needed th sv now ts s = false) :
    relay1Pass th sv now ts s = s := by
  unfold relay1Pass
  rw [hn, ho]
  rfl

theorem mainStep_state_ovr (th : Thresh) (sv : SensorAvg) (now : Tod) (ts : ℕ)
    (s : St) (x q : RelayId) (h : (s q).override = true) :
    (mainStep th sv now ts s x q).state = (s q).state := by
  unfold mainStep
  by_cases hx : x = RelayId.relay1
  · rw [if_pos hx]
  · rw [if_neg hx]
    by_cases hq : q = x
    · subst hq
      have hsb : shouldRelayBeOn th sv now ts s q = (s q).state := by
        unfold shouldRelayBeOn; rw [h]; rfl
      split_ifs with h1 h2
      · rw [Bool.and_eq_true, hsb] at h1
        rw [set_relay_output_eq, updState_state_self, h1.1]
      · rw [h] at h2; cases h2
      · rfl
    · split_ifs <;>
        first | rw [sro_apply_ne s _ _ q hq] | rfl

theorem mainLoop_state_ovr (th : Thresh) (sv : SensorAvg) (now : Tod) (ts : ℕ)
    (s : St) (q : RelayId) (h : (s q).override = true) :
    (mainLoop th sv now ts s q).state = (s q).state := by
  have step : ∀ t : St, ∀ x : RelayId, (t q).override = true →
      (mainStep th sv now ts t x q).state = (t q).state ∧
      (mainStep th sv now ts t x q).override = true := by
    intro t x ht
    refine ⟨mainStep_state_ovr th sv now ts t x q ht, ?_⟩
    rw [(cfgPart_fields (cfgPart_mainStep th sv now ts t x q)).1, ht]
  simp only [mainLoop, relayOrder, List.foldl]
  obtain ⟨e1, o1⟩ := step s .relay1 h
  obtain ⟨e2, o2⟩ := step _ .relay2 o1
  obtain ⟨e3, o3⟩ := step _ .relay3 o2
  obtain ⟨e4, o4⟩ := step _ .relay4 o3
  obtain ⟨e5, o5⟩ := step _ .relay5 o4
  obtain ⟨e6, o6⟩ := step _ .relay6 o5
  obtain ⟨e7, o7⟩ := step _ .relay7 o6
  obtain ⟨e8, o8⟩ := step _ .relay8 o7
  rw [e8, e7, e6, e5, e4, e3, e2, e1]

theorem lightsPass_apply_ne (now : Tod) (ts : ℕ) (s : St) (q : RelayId)
    (h2 : q ≠ .relay2) (h3 : q ≠ .relay3) :
    lightsPass now ts s q = s q := by
  unfold lightsPass
  split_ifs
  · rcases hc : (s RelayId.relay2).cycle with _ | c
    · rfl
    · dsimp only
      split_ifs <;> rw [sro_apply_ne _ _ _ q h3, sro_apply_ne _ _ _ q h2]
  · rfl
  · rfl

theorem lightsPass_ovr2 (now : Tod) (ts : ℕ) (s : St)
    (h : (s .relay2).override = true) : lightsPass now ts s = s := by
  unfold lightsPass
  rw [h]
  rfl

theorem lightsPass_ovr3 (now : Tod) (ts : ℕ) (s : St)
    (h : (s .relay3).override = true) : lightsPass now ts s = s := by
  unfold lightsPass
  rw [h]
  simp

theorem couple7_apply_ne (s : St) (q : RelayId) (h : q ≠ .relay7) :
    couple7 s q = s q := by
  unfold couple7
  split_ifs <;> first | exact sro_apply_ne s _ _ q h | rfl

theorem couple7_ovr (s : St) (h : (s .relay7).override = true) :
    couple7 s = s := by
  unfold couple7
  rw [h]
  simp

theorem couple4_apply_ne (s : St) (q : RelayId) (h : q ≠ .relay4) :
    couple4 s q = s q := by
  unfold couple4
  split_ifs <;> first | exact sro_apply_ne s _ _ q h | rfl

theorem couple4_ovr (s : St) (h : (s .relay4).override = true) :
    couple4 s = s := by
  unfold couple4
  rw [h]
  simp

/-! ## Concrete states used as test vectors -/

/-- A sensor snapshot: humidity 40 (below the default low threshold 50),
temperature 22, CO2 1200. -/
def svDefault : SensorAvg := { avg_temp := 22, avg_humidity := 40, co2 := 1200 }

/-- Default state except relay1 held OFF under override (no expiry). -/
def c1State : St := fun r =>
  if r = .relay1 then { initSt .relay1 with override := true } else initSt r

/-- Default state except relay6 held ON under override (no expiry). -/
def c1wState : St := fun r =>
  if r = .relay6 then { initSt .relay6 with override := true, state := true }
  else initSt r

/-- Default state except relay4 held ON under an override expiring at epoch
second 100. -/
def c2State : St := fun r =>
  if r = .relay4 then
    { initSt .relay4 with override := true, override_until := 100, state := true }
  else initSt r

/-! ## C1 -/

/-- C1, counterexample: with relay1 (Main PSU) under override and OFF, a tick
in which a dependent relay's raw rule wants power (here relay4's duty cycle is
in its ON phase at epoch 0) switches relay1 ON anyway — `_process_automation`
only honours relay1's override when turning it OFF, not when turning it ON.
The claim that the tick leaves every overridden relay's `state` unchanged is
therefore false. -/
theorem c1_overridden_psu_is_switched :
    (purgeAll c1State 0 .relay1).override = true ∧
    (c1State .relay1).state = false ∧
    ((processAutomation initThresh svDefault ⟨12, 0⟩ 0 c1State) .relay1).state
      = true := by
  decide

/-- C1 (amended): a tick leaves an overridden relay's `state` unchanged for
every relay other than relay1 unconditionally; for relay1 the override only
blocks switching OFF, so an overridden relay1 keeps its state provided no
dependent relay's raw rule currently wants it ON (`relay1Needed` false after
the purge). -/
theorem tick_preserves_overridden_state (th : Thresh) (sv : SensorAvg)
    (now : Tod) (ts : ℕ) (s : St) (r : RelayId)
    (h : (purgeAll s ts r).override = true)
    (h1 : r = .relay1 → relay1Needed th sv now ts (purgeAll s ts) = false) :
    (processAutomation th sv now ts s r).state = (s r).state := by
  unfold processAutomation
  have hps : (purgeAll s ts r).state = (s r).state := purge_state s ts r
  set s1 := purgeAll s ts with hs1def
  set s2 := relay1Pass th sv now ts s1 with hs2def
  set s3 := mainLoop th sv now ts s2 with hs3def
  set s4 := lightsPass now ts s3 with hs4def
  set s5 := couple7 s4 with hs5def
  have o2 : ∀ q, (s2 q).override = (s1 q).override := fun q => by
    rw [hs2def]; exact (cfgPart_fields (cfgPart_relay1Pass th sv now ts s1 q)).1
  have o3 : ∀ q, (s3 q).override = (s1 q).override := fun q => by
    rw [hs3def, (cfgPart_fields (cfgPart_mainLoop th sv now ts s2 q)).1, o2]
  have o4 : ∀ q, (s4 q).override = (s1 q).override := fun q => by
    rw [hs4def, (cfgPart_fields (cfgPart_lightsPass now ts s3 q)).1, o3]
  have o5 : ∀ q, (s5 q).override = (s1 q).override := fun q => by
    rw [hs5def, (cfgPart_fields (cfgPart_couple7 s4 q)).1, o4]
  have st2 : (s2 r).state = (s1 r).state := by
    by_cases hr : r = RelayId.relay1
    · subst hr
      rw [hs2def, relay1Pass_ovr_not_needed th sv now ts s1 h (h1 rfl)]
    · rw [hs2def, relay1Pass_apply_ne th sv now ts s1 r hr]
  have st3 : (s3 r).state = (s2 r).state :=
    mainLoop_state_ovr th sv now ts s2 r ((o2 r).trans h)
  have st4 : (s4 r).state = (s3 r).state := by
    by_cases hr2 : r = RelayId.relay2
    · subst hr2
      rw [hs4def, lightsPass_ovr2 now ts s3 ((o3 _).trans h)]
    · by_cases hr3 : r = RelayId.relay3
      · subst hr3
        rw [hs4def, lightsPass_ovr3 now ts s3 ((o3 _).trans h)]
      · rw [hs4def, lightsPass_apply_ne now ts s3 r hr2 hr3]
  have st5 : (s5 r).state = (s4 r).state := by
    by_cases hr : r = RelayId.relay7
    · subst hr
      rw [hs5def, couple7_ovr s4 ((o4 _).trans h)]
    · rw [hs5def, couple7_apply_ne s4 r hr]
  have st6 : (couple4 s5 r).state = (s5 r).state := by
    by_cases hr : r = RelayId.relay4
    · subst hr
      rw [couple4_ovr s5 ((o5 _).trans h)]
    · rw [couple4_apply_ne s5 r hr]
  rw [st6, st5, st4, st3, st2, hps]

/-- Witness for the amended C1: relay6 held ON under override keeps its state
through a tick. -/
theorem tick_preserves_overridden_state_witness :
    ((processAutomation initThresh svDefault ⟨12, 0⟩ 5 c1wState) .relay6).state
      = (c1wState .relay6).state :=
  tick_preserves_overridden_state initThresh svDefault ⟨12, 0⟩ 5 c1wState
    .relay6 (by decide) (by decide)

/-! ## C2 -/

/-- C2, counterexample: at the exact instant `now = override_until` (here both
100) the purge does NOT clear the override — the source tests
`current_timestamp > override_until` strictly, so at equality the relay keeps
its override through the whole tick, contradicting the claimed `<=`
boundary. -/
theorem c2_boundary_not_cleared :
    (c2State .relay4).override = true ∧
    (c2State .relay4).override_until = 100 ∧
    ((processAutomation initThresh svDefault ⟨12, 0⟩ 100 c2State)
        .relay4).override = true := by
  decide

/-- C2 (amended): the purge at the start of `_process_automation` (before any
decision logic; no later pass writes `override` or `override_until`) clears
both fields exactly when `override = true` and `0 < override_until < now`
(strictly).  A relay with `override_until = 0` or `override_until >= now`
keeps both fields — in particular at the exact instant `now = override_until`
the override is still in force for that tick. -/
theorem override_expiry_strict (th : Thresh) (sv : SensorAvg) (now : Tod)
    (ts : ℕ) (s : St) (r : RelayId) :
    ((s r).override = true → 0 < (s r).override_until →
      (s r).override_until < ts →
      (processAutomation th sv now ts s r).override = false ∧
      (processAutomation th sv now ts s r).override_until = 0) ∧
    ((s r).override = false ∨ (s r).override_until = 0 ∨
        ts ≤ (s r).override_until →
      (processAutomation th sv now ts s r).override = (s r).override ∧
      (processAutomation th sv now ts s r).override_until
        = (s r).override_until) := by
  have hc := cfgPart_fields (cfgPart_tick th sv now ts s r)
  constructor
  · intro h h0 hlt
    obtain ⟨hov, hou⟩ := purge_override_pos s ts r h h0 hlt
    exact ⟨hc.1.trans hov, hc.2.1.trans hou⟩
  · intro h
    have hk := purge_override_keep s ts r h
    exact ⟨by rw [hc.1, hk], by rw [hc.2.1, hk]⟩

/-- Witness for the amended C2: one tick past expiry (101 > 100) the override
is cleared; at the boundary tick (100 = 100) it is kept. -/
theorem override_expiry_strict_witness :
    (((processAutomation initThresh svDefault ⟨12, 0⟩ 101 c2State)
        .relay4).override = false ∧
     ((processAutomation initThresh svDefault ⟨12, 0⟩ 101 c2State)
        .relay4).override_until = 0) ∧
    ((processAutomation initThresh svDefault ⟨12, 0⟩ 100 c2State)
        .relay4).override = true :=
  ⟨(override_expiry_strict initThresh svDefault ⟨12, 0⟩ 101 c2State
      .relay4).1 (by decide) (by decide) (by decide),
   ((override_expiry_strict initThresh svDefault ⟨12, 0⟩ 100 c2State
      .relay4).2 (by decide)).1.trans (by decide)⟩

/-! ## C3 -/

/-- The minutes-based phase test of the alternating-lights pass
(`int(now/60) % interval_minutes < on_duration_minutes`) agrees with the
seconds-based duty-cycle test of `_should_cycle_be_on`
(`now % (interval*60) < on_duration*60`). -/
theorem cycle_minutes_eq_seconds (t i d : ℕ) :
    (t / 60 % i < d) ↔ (t % (i * 60) < d * 60) := by
  rw [← Nat.mod_mul_right_div_self, mul_comm i 60]
  exact Nat.div_lt_iff_lt_mul (by norm_num)

theorem isInSchedule_congr {a b : Entry} (now : Tod)
    (h1 : a.sched_start = b.sched_start) (h2 : a.sched_end = b.sched_end) :
    isInSchedule a now = isInSchedule b now := by
  unfold isInSchedule
  rw [h1, h2]

/-- When neither light is overridden and both are in schedule, the dedicated
pass sets relay2 to the minutes-based phase bit and relay3 to its negation. -/
theorem lightsPass_active (now : Tod) (ts : ℕ) (s : St) (c : Cyc)
    (h2 : (s .relay2).override = false) (h3 : (s .relay3).override = false)
    (hs2 : isInSchedule (s .relay2) now = true)
    (hs3 : isInSchedule (s .relay3) now = true)
    (hc : (s .relay2).cycle = some c) :
    ((lightsPass now ts s) .relay2).state
      = decide (ts / 60 % c.interval < c.on_duration) ∧
    ((lightsPass now ts s) .relay3).state
      = !decide (ts / 60 % c.interval < c.on_duration) := by
  unfold lightsPass
  rw [h2, h3, hs2, hs3, hc]
  simp only [Bool.not_false, Bool.and_self, if_true]
  by_cases hph : ts / 60 % c.interval < c.on_duration
  · rw [if_pos hph, decide_eq_true hph]
    constructor
    · rw [sro_apply_ne _ _ _ _ (by decide), set_relay_output_eq,
        updState_state_self]
    · rw [set_relay_output_eq (set_relay_output s .relay2 true),
        updState_state_self, Bool.not_true]
  · rw [if_neg hph, decide_eq_false hph]
    constructor
    · rw [sro_apply_ne _ _ _ _ (by decide), set_relay_output_eq,
        updState_state_self]
    · rw [set_relay_output_eq (set_relay_output s .relay2 false),
        updState_state_self, Bool.not_false]

/-- C3 (confirmed): in a tick where both lights are in their schedule window
and neither is overridden (after the purge), exactly one of relay2 (UV) and
relay3 (Grow) ends the tick ON — relay2 exactly when the section-4.2
duty-cycle phase test `now mod interval_seconds < on_seconds` holds for the
shared interval, the code's minutes-based computation
`int(now/60) mod interval_minutes < on_duration_minutes` being equivalent
to it. -/
theorem lights_alternate_exclusive (th : Thresh) (sv : SensorAvg) (now : Tod)
    (ts : ℕ) (s : St) (c : Cyc)
    (h2 : (purgeAll s ts .relay2).override = false)
    (h3 : (purgeAll s ts .relay3).override = false)
    (hs2 : isInSchedule (s .relay2) now = true)
    (hs3 : isInSchedule (s .relay3) now = true)
    (hc : (s .relay2).cycle = some c) :
    ((processAutomation th sv now ts s .relay2).state
       = !(processAutomation th sv now ts s .relay3).state) ∧
    ((processAutomation th sv now ts s .relay2).state = true ↔
       ts % (c.interval * 60) < c.on_duration * 60) := by
  unfold processAutomation
  set s1 := purgeAll s ts with hs1def
  set s2 := relay1Pass th sv now ts s1 with hs2def
  set s3 := mainLoop th sv now ts s2 with hs3def
  have cfg3 : ∀ q, cfgPart (s3 q) = cfgPart (s1 q) := fun q => by
    rw [hs3def, cfgPart_mainLoop, hs2def, cfgPart_relay1Pass]
  have hov2 : (s3 .relay2).override = false :=
    ((cfgPart_fields (cfg3 .relay2)).1).trans h2
  have hov3 : (s3 .relay3).override = false :=
    ((cfgPart_fields (cfg3 .relay3)).1).trans h3
  have hsc2 : isInSchedule (s3 .relay2) now = true := by
    rw [isInSchedule_congr now
      ((cfgPart_fields (cfg3 .relay2)).2.2.2.1.trans (purge_sched_start s ts _))
      ((cfgPart_fields (cfg3 .relay2)).2.2.2.2.1.trans (purge_sched_end s ts _))]
    exact hs2
  have hsc3 : isInSchedule (s3 .relay3) now = true := by
    rw [isInSchedule_congr now
      ((cfgPart_fields (cfg3 .relay3)).2.2.2.1.trans (purge_sched_start s ts _))
      ((cfgPart_fields (cfg3 .relay3)).2.2.2.2.1.trans (purge_sched_end s ts _))]
    exact hs3
  have hcy : (s3 .relay2).cycle = some c :=
    ((cfgPart_fields (cfg3 .relay2)).2.2.2.2.2.trans
      (purge_cycle s ts _)).trans hc
  obtain ⟨e2, e3⟩ := lightsPass_active now ts s3 c hov2 hov3 hsc2 hsc3 hcy
  have k2 : (couple4 (couple7 (lightsPass now ts s3)) .relay2).state
      = ((lightsPass now ts s3) .relay2).state := by
    rw [couple4_apply_ne _ _ (by decide), couple7_apply_ne _ _ (by decide)]
  have k3 : (couple4 (couple7 (lightsPass now ts s3)) .relay3).state
      = ((lightsPass now ts s3) .relay3).state := by
    rw [couple4_apply_ne _ _ (by decide), couple7_apply_ne _ _ (by decide)]
  constructor
  · rw [k2, k3, e2, e3, Bool.not_not]
  · rw [k2, e2, decide_eq_true_eq]
    exact cycle_minutes_eq_seconds ts c.interval c.on_duration

/-- Witness for C3: the default configuration at noon, epoch 0 (ON phase of
the 30/60-minute cycle): relay2 ends ON, relay3 OFF. -/
theorem lights_alternate_exclusive_witness :
    ((processAutomation initThresh svDefault ⟨12, 0⟩ 0 initSt .relay2).state
       = !(processAutomation initThresh svDefault ⟨12, 0⟩ 0 initSt
            .relay3).state) ∧
    ((processAutomation initThresh svDefault ⟨12, 0⟩ 0 initSt .relay2).state
       = true ↔ 0 % (60 * 60) < 30 * 60) :=
  lights_alternate_exclusive initThresh svDefault ⟨12, 0⟩ 0 initSt ⟨30, 60, 0⟩
    (by decide) (by decide) (by decide) (by decide) (by decide)

/-! ## C4 -/

/-- A relay entry with the wrap-around schedule 22:00–06:00. -/
def ex2206 : Entry :=
  { state := false, override := false, override_until := 0
    override_duration := 300
    sched_start := ⟨22, 0⟩, sched_end := ⟨6, 0⟩, cycle := none }

/-- C4 (confirmed): `_is_in_schedule` is true for `start <= end` iff
`start <= now <= end`, and for `start > end` (midnight wrap) iff
`now >= start or now <= end`; concretely for 22:00–06:00 the times 23:00,
00:00 and 05:59 are in-schedule and 12:00 is not. -/
theorem schedule_window_eval :
    (∀ (e : Entry) (now : Tod),
      (todLe e.sched_start e.sched_end = true →
        (isInSchedule e now = true ↔
          (todLe e.sched_start now = true ∧ todLe now e.sched_end = true))) ∧
      (todLe e.sched_start e.sched_end = false →
        (isInSchedule e now = true ↔
          (todLe e.sched_start now = true ∨ todLe now e.sched_end = true)))) ∧
    isInSchedule ex2206 ⟨23, 0⟩ = true ∧ isInSchedule ex2206 ⟨0, 0⟩ = true ∧
    isInSchedule ex2206 ⟨5, 59⟩ = true ∧ isInSchedule ex2206 ⟨12, 0⟩ = false := by
  refine ⟨fun e now => ⟨fun h => ?_, fun h => ?_⟩,
    by decide, by decide, by decide, by decide⟩
  · simp [isInSchedule, h]
  · simp [isInSchedule, h]

/-- Witness for C4: the wrap-around characterization applied to the
22:00–06:00 schedule at 23:00. -/
theorem schedule_window_eval_witness :
    isInSchedule ex2206 ⟨23, 0⟩ = true ↔
      (todLe ex2206.sched_start ⟨23, 0⟩ = true ∨
       todLe ⟨23, 0⟩ ex2206.sched_end = true) :=
  (schedule_window_eval.1 ex2206 ⟨23, 0⟩).2 (by decide)

/-! ## C5 -/

/-- C5 (confirmed): `_should_cycle_be_on` is ON iff
`t mod (interval*60) < on_duration*60` (for `on_duration=30, interval=60`
this is `t mod 3600 < 1800`), and a relay without a cycle configuration
evaluates to OFF.  The evaluator is a pure function of the relay map and `t`,
so two evaluations at the same `t` agree by construction. -/
theorem duty_cycle_eval (s : St) (ts : ℕ) (r : RelayId) :
    (∀ c : Cyc, (s r).cycle = some c →
      (shouldCycleBeOn s ts r = true ↔
        ts % (c.interval * 60) < c.on_duration * 60)) ∧
    ((s r).cycle = none → shouldCycleBeOn s ts r = false) ∧
    (∀ lt : ℕ, (s r).cycle = some ⟨30, 60, lt⟩ →
      (shouldCycleBeOn s ts r = true ↔ ts % 3600 < 1800)) := by
  refine ⟨fun c hc => ?_, fun hn => ?_, fun lt hc => ?_⟩
  · unfold shouldCycleBeOn
    rw [hc]
    simp
  · unfold shouldCycleBeOn
    rw [hn]
  · unfold shouldCycleBeOn
    rw [hc]
    simp

/-- Witness for C5: relay4's default 15/60-minute cycle at epoch second 100
is in its ON phase. -/
theorem duty_cycle_eval_witness :
    shouldCycleBeOn initSt 100 .relay4 = true ↔ 100 % (60 * 60) < 15 * 60 :=
  (duty_cycle_eval initSt 100 .relay4).1 ⟨15, 60, 0⟩ (by decide)

/-! ## C6 -/

theorem directDep_relay1 {d r : RelayId} (h : directDep d r) :
    r = .relay1 := by
  cases d <;> simp_all [directDep, deps]

/-- In the fixed dependency graph only direct edges exist (every edge points
at relay1, which has no dependencies), so transitive dependency collapses to
the direct one. -/
theorem trans_to_direct {d r : RelayId}
    (h : Relation.TransGen directDep d r) : directDep d r := by
  induction h with
  | single h1 => exact h1
  | tail hab hbc ih =>
    have hb := directDep_relay1 ih
    subst hb
    exact absurd hbc (by simp [directDep, deps])

/-- One iteration of the cascading-shutdown loop, specialised to a dependent
whose own recursive `set_relay_state(…, False)` call reduces to a single
output write (no relay depends on it). -/
def offStep (x : RelayId) (t : St) : St :=
  if (t x).state then set_relay_output t x false else t

/-- The call `set_relay_state(relay1, False)` computes to: switch relay1 off, then walk
the relay order and switch off each currently-ON dependent of relay1. -/
theorem srs_relay1_off (s : St) (nowTs : ℕ) :
    set_relay_state s .relay1 false false none nowTs =
      offStep .relay7 (offStep .relay5 (offStep .relay4 (offStep .relay3
        (offStep .relay2 (set_relay_output s .relay1 false))))) := rfl

theorem offStep_state (t : St) (x q : RelayId)
    (h : q = x ∨ (t q).state = false) : ((offStep x t) q).state = false := by
  unfold offStep
  by_cases hx : (t x).state = true
  · rw [if_pos hx, set_relay_output_eq]
    by_cases hq : q = x
    · subst hq
      exact updState_state_self ..
    · rw [updState_apply_ne _ _ _ _ hq]
      rcases h with h | h
      · exact absurd h hq
      · exact h
  · rw [if_neg hx]
    rcases h with h | h
    · subst h
      cases hb : (t q).state
      · rfl
      · exact absurd hb hx
    · exact h

/-- C6 (confirmed): `set_relay_state(r, False)` cascades the shutdown through
the dependency graph — afterwards no relay that (transitively) depends on `r`
is left ON, whatever the starting state. -/
theorem set_relay_state_cascades_off (s : St) (nowTs : ℕ) (d r : RelayId)
    (h : Relation.TransGen directDep d r) :
    ((set_relay_state s r false false none nowTs) d).state = false := by
  have hd : directDep d r := trans_to_direct h
  have hr : r = .relay1 := directDep_relay1 hd
  subst hr
  rw [srs_relay1_off]
  cases d with
  | relay1 => exact absurd hd (by simp [directDep, deps])
  | relay2 =>
      exact offStep_state _ _ _ (Or.inr (offStep_state _ _ _ (Or.inr
        (offStep_state _ _ _ (Or.inr (offStep_state _ _ _ (Or.inr
          (offStep_state _ _ _ (Or.inl rfl)))))))))
  | relay3 =>
      exact offStep_state _ _ _ (Or.inr (offStep_state _ _ _ (Or.inr
        (offStep_state _ _ _ (Or.inr (offStep_state _ _ _ (Or.inl rfl)))))))
  | relay4 =>
      exact offStep_state _ _ _ (Or.inr (offStep_state _ _ _ (Or.inr
        (offStep_state _ _ _ (Or.inl rfl)))))
  | relay5 =>
      exact offStep_state _ _ _ (Or.inr (offStep_state _ _ _ (Or.inl rfl)))
  | relay6 => exact absurd hd (by simp [directDep, deps])
  | relay7 => exact offStep_state _ _ _ (Or.inl rfl)
  | relay8 => exact absurd hd (by simp [directDep, deps])

/-- Default state with relay1 and relay2 ON. -/
def c6State : St := fun r =>
  if r = .relay1 ∨ r = .relay2 then { initSt r with state := true }
  else initSt r

/-- Witness for C6: with relay1 and its dependent relay2 both ON, switching
relay1 off leaves relay2 OFF. -/
theorem set_relay_state_cascades_off_witness :
    ((set_relay_state c6State .relay1 false false none 0) .relay2).state
      = false :=
  set_relay_state_cascades_off c6State 0 .relay2 .relay1
    (Relation.TransGen.single (by simp [directDep, deps]))

/-! ## C7 -/

/-- C7 (confirmed): for a valid threshold kind, `set_thresholds` fails and
mutates nothing when `low >= high` or an argument is non-numeric; with
numeric `low < high` it succeeds and the stored pair becomes `(low, high)`. -/
theorem thresholds_validation (th : Thresh) (kind : String) (low high : PyVal)
    (hk : kind = "temperature" ∨ kind = "humidity" ∨ kind = "co2") :
    (∀ l h : ℚ, low = .num l → high = .num h → h ≤ l →
      set_thresholds th kind low high = (th, false)) ∧
    ((low = .other ∨ high = .other) →
      set_thresholds th kind low high = (th, false)) ∧
    (∀ l h : ℚ, low = .num l → high = .num h → l < h →
      (set_thresholds th kind low high).2 = true ∧
      getPair (set_thresholds th kind low high).1 kind = (l, h)) := by
  refine ⟨fun l h hl hh hle => ?_, fun ho => ?_, fun l h hl hh hlt => ?_⟩
  · subst hl; subst hh
    unfold set_thresholds
    rw [if_pos hk]
    exact if_pos hle
  · rcases ho with ho | ho
    · subst ho
      cases high <;> (unfold set_thresholds; split_ifs <;> rfl)
    · subst ho
      cases low <;> (unfold set_thresholds; split_ifs <;> rfl)
  · subst hl; subst hh
    have hno := not_le.mpr hlt
    rcases hk with hk | hk | hk <;> subst hk
    · have hres : set_thresholds th "temperature" (.num l) (.num h)
          = ({ th with temperature_low := l, temperature_high := h }, true) := by
        unfold set_thresholds
        rw [if_pos (by simp)]
        dsimp only
        rw [if_neg hno, if_pos rfl]
      rw [hres]
      exact ⟨rfl, by unfold getPair; rw [if_pos rfl]⟩
    · have hres : set_thresholds th "humidity" (.num l) (.num h)
          = ({ th with humidity_low := l, humidity_high := h }, true) := by
        unfold set_thresholds
        rw [if_pos (by simp)]
        dsimp only
        rw [if_neg hno, if_neg (by decide), if_pos rfl]
      rw [hres]
      exact ⟨rfl, by unfold getPair; rw [if_neg (by decide), if_pos rfl]⟩
    · have hres : set_thresholds th "co2" (.num l) (.num h)
          = ({ th with co2_low := l, co2_high := h }, true) := by
        unfold set_thresholds
        rw [if_pos (by simp)]
        dsimp only
        rw [if_neg hno, if_neg (by decide), if_neg (by decide)]
      rw [hres]
      exact ⟨rfl, by unfold getPair; rw [if_neg (by decide), if_neg (by decide)]⟩

/-- Witness for C7: `set_thresholds('temperature', 25, 20)` fails and leaves
the default thresholds untouched. -/
theorem thresholds_validation_witness :
    set_thresholds initThresh "temperature" (.num 25) (.num 20)
      = (initThresh, false) :=
  (thresholds_validation initThresh "temperature" (.num 25) (.num 20)
    (Or.inl rfl)).1 25 20 rfl rfl (by norm_num)

/-! ## C9 -/

/-- C9 (confirmed): a successful `set_thresholds('co2', low, high)` writes
only the co2 `low`/`high` values; the co2 `tubfans_low` trigger and both the
temperature and humidity pairs are untouched. -/
theorem co2_update_frame (th : Thresh) (l h : ℚ)
    (hs : (set_thresholds th "co2" (.num l) (.num h)).2 = true) :
    (set_thresholds th "co2" (.num l) (.num h)).1.co2_low = l ∧
    (set_thresholds th "co2" (.num l) (.num h)).1.co2_high = h ∧
    (set_thresholds th "co2" (.num l) (.num h)).1.co2_tubfans_low
      = th.co2_tubfans_low ∧
    (set_thresholds th "co2" (.num l) (.num h)).1.temperature_low
      = th.temperature_low ∧
    (set_thresholds th "co2" (.num l) (.num h)).1.temperature_high
      = th.temperature_high ∧
    (set_thresholds th "co2" (.num l) (.num h)).1.humidity_low
      = th.humidity_low ∧
    (set_thresholds th "co2" (.num l) (.num h)).1.humidity_high
      = th.humidity_high := by
  by_cases hle : h ≤ l
  · exfalso
    rw [(thresholds_validation th "co2" (.num l) (.num h)
      (Or.inr (Or.inr rfl))).1 l h rfl rfl hle] at hs
    exact Bool.false_ne_true hs
  · have hres : set_thresholds th "co2" (.num l) (.num h)
        = ({ th with co2_low := l, co2_high := h }, true) := by
      unfold set_thresholds
      rw [if_pos (Or.inr (Or.inr rfl))]
      dsimp only
      rw [if_neg hle, if_neg (by decide), if_neg (by decide)]
    rw [hres]
    exact ⟨rfl, rfl, rfl, rfl, rfl, rfl, rfl⟩

/-- Witness for C9: a successful co2 update from the defaults keeps
`tubfans_low` at 1100 and the other pairs at their old values. -/
theorem co2_update_frame_witness :
    (set_thresholds initThresh "co2" (.num 900) (.num 1500)).1.co2_low = 900 ∧
    (set_thresholds initThresh "co2" (.num 900) (.num 1500)).1.co2_high
      = 1500 ∧
    (set_thresholds initThresh "co2" (.num 900) (.num 1500)).1.co2_tubfans_low
      = initThresh.co2_tubfans_low ∧
    (set_thresholds initThresh "co2" (.num 900) (.num 1500)).1.temperature_low
      = initThresh.temperature_low ∧
    (set_thresholds initThresh "co2"
        (.num 900) (.num 1500)).1.temperature_high
      = initThresh.temperature_high ∧
    (set_thresholds initThresh "co2" (.num 900) (.num 1500)).1.humidity_low
      = initThresh.humidity_low ∧
    (set_thresholds initThresh "co2" (.num 900) (.num 1500)).1.humidity_high
      = initThresh.humidity_high :=
  co2_update_frame initThresh 900 1500 (by decide)

/-! ## C10 -/

/-- C10 (confirmed): `set_cycle` fails and leaves the whole relay map
unchanged whenever either argument is a non-`int` (a float is rejected even
with `0 < on_duration <= interval`), and success requires two `int` arguments
with `0 < on_duration <= interval`. -/
theorem cycle_validation (s : St) (r : RelayId) (od iv : PyArg) :
    (((∃ q : ℚ, od = .float q) ∨ (∃ q : ℚ, iv = .float q)) →
      set_cycle s r od iv = (s, false)) ∧
    ((set_cycle s r od iv).2 = true →
      ∃ d i : ℤ, od = .int d ∧ iv = .int i ∧ 0 < d ∧ d ≤ i) := by
  constructor
  · rintro (⟨q, rfl⟩ | ⟨q, rfl⟩)
    · cases iv <;> rfl
    · cases od <;> rfl
  · intro hsucc
    cases od with
    | float q => cases iv <;> simp [set_cycle] at hsucc
    | int d =>
      cases iv with
      | float q => simp [set_cycle] at hsucc
      | int i =>
        unfold set_cycle at hsucc
        dsimp only at hsucc
        by_cases h1 : d ≤ 0 ∨ i ≤ 0
        · rw [if_pos h1] at hsucc
          exact absurd hsucc (by simp)
        · by_cases h2 : i < d
          · rw [if_neg h1, if_pos h2] at hsucc
            exact absurd hsucc (by simp)
          · push_neg at h1
            exact ⟨d, i, rfl, rfl, h1.1, not_lt.mp h2⟩

/-- Witness for C10: a float `on_duration` of 10 (which would satisfy
`0 < 10 <= 60`) is rejected without mutation. -/
theorem cycle_validation_witness :
    set_cycle initSt .relay4 (.float 10) (.int 60) = (initSt, false) :=
  (cycle_validation initSt .relay4 (.float 10) (.int 60)).1 (Or.inl ⟨10, rfl⟩)

/-! ## C8 -/

theorem filter3_ne_nil {a b c : ℚ} (h : ¬(a = 0 ∧ b = 0 ∧ c = 0)) :
    ([a, b, c].filter fun t => t ≠ 0) ≠ [] := by
  intro hnil
  rw [List.filter_eq_nil_iff] at hnil
  refine h ⟨?_, ?_, ?_⟩
  · have := hnil a (by simp)
    simpa using this
  · have := hnil b (by simp)
    simpa using this
  · have := hnil c (by simp)
    simpa using this

/-- C8 (confirmed): the derived averages exclude sensors reporting the
sentinel 0.  When at least one reading is non-zero the result is the
arithmetic mean (sum over count) of the non-zero readings only and the
divisor is provably non-zero; when all three readings are 0 the guard yields
the neutral value 0 without dividing. -/
theorem averages_exclude_zero (sd : SensorData) :
    (¬(sd.upper_dht.temperature = 0 ∧ sd.lower_dht.temperature = 0 ∧
        sd.scd40.temperature = 0) →
      ((valid_temps sd).length : ℚ) ≠ 0 ∧
      get_average_temperature sd
        = (valid_temps sd).sum / (valid_temps sd).length) ∧
    (sd.upper_dht.temperature = 0 ∧ sd.lower_dht.temperature = 0 ∧
        sd.scd40.temperature = 0 → get_average_temperature sd = 0) ∧
    (¬(sd.upper_dht.humidity = 0 ∧ sd.lower_dht.humidity = 0 ∧
        sd.scd40.humidity = 0) →
      ((valid_humidities sd).length : ℚ) ≠ 0 ∧
      get_average_humidity sd
        = (valid_humidities sd).sum / (valid_humidities sd).length) ∧
    (sd.upper_dht.humidity = 0 ∧ sd.lower_dht.humidity = 0 ∧
        sd.scd40.humidity = 0 → get_average_humidity sd = 0) := by
  refine ⟨fun h => ?_, fun h => ?_, fun h => ?_, fun h => ?_⟩
  · have hne : valid_temps sd ≠ [] := filter3_ne_nil h
    constructor
    · exact_mod_cast Nat.pos_iff_ne_zero.mp (List.length_pos.mpr hne)
    · unfold get_average_temperature
      rw [if_neg (by simpa [List.isEmpty_iff] using hne)]
  · obtain ⟨h1, h2, h3⟩ := h
    unfold get_average_temperature valid_temps
    rw [h1, h2, h3]
    rfl
  · have hne : valid_humidities sd ≠ [] := filter3_ne_nil h
    constructor
    · exact_mod_cast Nat.pos_iff_ne_zero.mp (List.length_pos.mpr hne)
    · unfold get_average_humidity
      rw [if_neg (by simpa [List.isEmpty_iff] using hne)]
  · obtain ⟨h1, h2, h3⟩ := h
    unfold get_average_humidity valid_humidities
    rw [h1, h2, h3]
    rfl

/-- All-stale snapshot: every reading is the sentinel 0. -/
def sdZero : SensorData := ⟨⟨0, 0⟩, ⟨0, 0⟩, ⟨0, 0⟩⟩

/-- Witness for C8: the all-stale snapshot yields the neutral value 0 for the
temperature average. -/
theorem averages_exclude_zero_witness : get_average_temperature sdZero = 0 :=
  (averages_exclude_zero sdZero).2.1 ⟨rfl, rfl, rfl⟩

end RPIMon
